import Mathlib

/-!
Verification of the option-schema resolution engine of the
`build/generate-opts.py` code generator: the data model of option
records and option structs, the list-flattening helper used by the
struct constructor, the concrete struct registry `opts_structs`, the
recursive path resolver `paths`, the reverse lookup `path_to`, the
per-struct defaulting rule `Struct.default`, and the documentation
extraction `document_opts`.

The Python resolver recurses through registry lookups with no
structural decrease, so the embedding gives the recursive functions an
explicit fuel argument; exhausting the fuel is reported as a failure
(`none` / `Except.error`), and a monotonicity lemma shows the result
is independent of the fuel once it is large enough.
-/

namespace GenerateOpts

/-- Values appearing in a struct's keyword defaults: strings such as
`ordered='true'` and integers such as `limit=1`. -/
inductive Val where
  | str : String → Val
  | int : Int → Val
deriving DecidableEq

/-- One option record: the dict of attributes attached to an option
name — its type tag, optional help text, optional conversion routine,
optional storage field override, and the internal/hidden flags. -/
structure OptInfo where
  type : String
  help : Option String := none
  convert : Option String := none
  field : Option String := none
  internal : Bool := false
  hidden : Bool := false
deriving DecidableEq

/-- A value appearing in an item list passed to the `Struct`
constructor: either a single `(name, info)` pair, or a list of such
values, encoded by nil/cons cells so that recursion into sublists is
structural. A Python list `[x, y]` is `cons x (cons y nil)`. -/
inductive Item (α : Type) where
  | single : α → Item α
  | nil : Item α
  | cons : Item α → Item α → Item α
deriving DecidableEq

/-- Build the encoding of a list value from its elements. -/
def Item.listOf {α : Type} (l : List (Item α)) : Item α := l.foldr Item.cons Item.nil

/-- The body of `flatten` for one item: a non-list item is yielded as
is, and a list item is recursively expanded. -/
def flattenOne {α : Type} : Item α → List α
  | Item.single a => [a]
  | Item.nil => []
  | Item.cons x xs => flattenOne x ++ flattenOne xs

/-- `flatten(items)`: yield each non-list item, and recursively expand
each list item, preserving order. -/
def flatten {α : Type} (items : List (Item α)) : List α := items.flatMap flattenOne

/-- One update step of `OrderedDict` construction: if the key is
present, the value is replaced in place; otherwise the pair is
appended. -/
def odSet {α : Type} (d : List (String × α)) (k : String) (v : α) : List (String × α) :=
  if d.any (fun p => p.1 == k) then d.map (fun p => if p.1 == k then (k, v) else p)
  else d ++ [(k, v)]

/-- `OrderedDict(pairs)`: insert the pairs in order, later values for
the same key winning while keeping the first occurrence's position. -/
def orderedDictOf {α : Type} (l : List (String × α)) : List (String × α) :=
  l.foldl (fun d p => odSet d p.1 p.2) []

/-- An options struct: the ordered `name → record` mapping produced by
flattening the constructor's items, plus the struct-level metadata. -/
structure Struct where
  items : List (String × OptInfo)
  opts_name : String := "opts"
  generate_rst : Bool := true
  generate_code : Bool := true
  allow_extra : Bool := true
  defaults : List (String × Val) := []
  is_shared : Bool := false
deriving DecidableEq

/-- `Struct(items, ...)` with all keyword arguments left at their
defaults: flatten the item list and load it into the ordered mapping. -/
def Struct.ofList (raw : List (Item (String × OptInfo))) : Struct :=
  { items := orderedDictOf (flatten raw) }

/-- `Shared(items, ...)`: a struct shared by others; `is_shared` is set
and `generate_rst` cleared. -/
def Shared.ofList (raw : List (Item (String × OptInfo))) : Struct :=
  { items := orderedDictOf (flatten raw), is_shared := true, generate_rst := false }

/-- `struct.default(item, fallback) = struct.defaults.get(item, fallback)`. -/
def Struct.default (s : Struct) (item : String) (fallback : Val) : Val :=
  ((s.defaults.find? (fun p => p.1 == item)).map Prod.snd).getD fallback

/-- The module-level `read_concern_option` pair. -/
def read_concern_option : String × OptInfo :=
  ("readConcern", {
    type := "document",
    help := some "Construct a :symbol:`mongoc_read_concern_t` and use :symbol:`mongoc_read_concern_append` to add the read concern to ``opts``. See the example code for :symbol:`mongoc_client_read_command_with_opts`. Read concern requires MongoDB 3.2 or later, otherwise an error is returned." })

/-- The module-level `write_concern_option`, a list of two pairs. -/
def write_concern_option : Item (String × OptInfo) :=
  Item.listOf [
    Item.single ("writeConcern", {
      type := "mongoc_write_concern_t *",
      convert := some "_mongoc_convert_write_concern",
      help := some "Construct a :symbol:`mongoc_write_concern_t` and use :symbol:`mongoc_write_concern_append` to add the write concern to ``opts``. See the example code for :symbol:`mongoc_client_write_command_with_opts`." }),
    Item.single ("write_concern_owned", {
      type := "bool",
      internal := true })]

/-- The module-level `session_option` pair. -/
def session_option : String × OptInfo :=
  ("sessionId", {
    type := "mongoc_client_session_t *",
    convert := some "_mongoc_convert_session_id",
    field := some "client_session",
    help := some "Construct a :symbol:`mongoc_client_session_t` with :symbol:`mongoc_client_start_session` and use :symbol:`mongoc_client_session_append` to add the session to ``opts``. See the example code for :symbol:`mongoc_client_session_t`." })

/-- The module-level `ordered_option` pair. -/
def ordered_option : String × OptInfo :=
  ("ordered", {
    type := "bool",
    help := some "set to ``false`` to attempt to insert all documents, continuing after errors." })

/-- The module-level `validate_option` pair. -/
def validate_option : String × OptInfo :=
  ("validate", {
    type := "bson_validate_flags_t",
    convert := some "_mongoc_convert_validate_flags",
    help := some "Construct a bitwise-or of all desired :symbol:`bson_validate_flags_t <bson_validate_with_error>`. Set to ``false`` to skip client-side validation of the provided BSON documents." })

/-- The module-level `collation_option` pair. -/
def collation_option : String × OptInfo :=
  ("collation", {
    type := "document",
    help := some "Configure textual comparisons. See :ref:`Setting Collation Order <setting_collation_order>`, and `the MongoDB Manual entry on Collation <https://docs.mongodb.com/manual/reference/collation/>`_. Collation requires MongoDB 3.2 or later, otherwise an error is returned." })

/-- The module-level `array_filters_option` pair. -/
def array_filters_option : String × OptInfo :=
  ("arrayFilters", {
    type := "array",
    help := some "An array of filters specifying to which array elements an update should apply." })

/-- The module-level `upsert_option` pair. -/
def upsert_option : String × OptInfo :=
  ("upsert", {
    type := "bool",
    help := some "When true, creates a new document if no document matches the query." })

/-- The module-level `bypass_option` pair. -/
def bypass_option : String × OptInfo :=
  ("bypassDocumentValidation", {
    type := "mongoc_write_bypass_document_validation_t",
    field := some "bypass",
    help := some "Set to ``true`` to skip server-side schema validation of the provided BSON documents." })

/-- The module-level `server_option` pair. -/
def server_option : String × OptInfo :=
  ("serverId", {
    type := "uint32_t",
    convert := some "_mongoc_convert_server_id",
    help := some "To target a specific server, include an int32 \"serverId\" field. Obtain the id by calling :symbol:`mongoc_client_select_server`, then :symbol:`mongoc_server_description_id` on its return value." })

/-- Registry entry `mongoc_find_one_opts_t` (generate_rst=False). -/
def mongoc_find_one_opts_t : Struct :=
  { Struct.ofList [
      .single ("projection", { type := "document" }),
      .single ("sort", { type := "document" }),
      .single ("skip", { type := "int64_t", convert := some "_mongoc_convert_int64_positive" }),
      .single ("limit", { type := "int64_t", convert := some "_mongoc_convert_int64_positive" }),
      .single ("batchSize", { type := "int64_t", convert := some "_mongoc_convert_int64_positive" }),
      .single ("exhaust", { type := "bool" }),
      .single ("hint", { type := "bson_value_t" }),
      .single ("allowPartialResults", { type := "bool" }),
      .single ("awaitData", { type := "bool" }),
      .single ("collation", { type := "document" }),
      .single ("comment", { type := "utf8" }),
      .single ("max", { type := "document" }),
      .single ("maxScan", { type := "int64_t", convert := some "_mongoc_convert_int64_positive" }),
      .single ("maxTimeMS", { type := "int64_t", convert := some "_mongoc_convert_int64_positive" }),
      .single ("maxAwaitTimeMS", { type := "int64_t", convert := some "_mongoc_convert_int64_positive" }),
      .single ("min", { type := "document" }),
      .single ("noCursorTimeout", { type := "bool" }),
      .single ("oplogReplay", { type := "bool" }),
      .single ("returnKey", { type := "bool" }),
      .single ("showRecordId", { type := "bool" }),
      .single ("singleBatch", { type := "bool" }),
      .single ("snapshot", { type := "bool" }),
      .single ("tailable", { type := "bool" })]
    with generate_rst := false }

/-- Registry entry `mongoc_crud_opts_t` (a `Shared` struct). -/
def mongoc_crud_opts_t : Struct :=
  Shared.ofList [
    write_concern_option,
    .single session_option,
    .single validate_option]

/-- Registry entry `mongoc_update_opts_t` (a `Shared` struct). -/
def mongoc_update_opts_t : Struct :=
  Shared.ofList [
    .single ("crud", { type := "mongoc_crud_opts_t" }),
    .single bypass_option,
    .single collation_option,
    .single upsert_option]

/-- Registry entry `mongoc_insert_one_opts_t`. -/
def mongoc_insert_one_opts_t : Struct :=
  { Struct.ofList [
      .single ("crud", { type := "mongoc_crud_opts_t" }),
      .single bypass_option]
    with defaults := [("validate", Val.str "_mongoc_default_insert_vflags")] }

/-- Registry entry `mongoc_insert_many_opts_t`. -/
def mongoc_insert_many_opts_t : Struct :=
  { Struct.ofList [
      .single ("crud", { type := "mongoc_crud_opts_t" }),
      .single ordered_option,
      .single bypass_option]
    with defaults := [("validate", Val.str "_mongoc_default_insert_vflags"),
                      ("ordered", Val.str "true")] }

/-- Registry entry `mongoc_delete_one_opts_t`. -/
def mongoc_delete_one_opts_t : Struct :=
  Struct.ofList [
    .single ("crud", { type := "mongoc_crud_opts_t" }),
    .single collation_option]

/-- Registry entry `mongoc_delete_many_opts_t`. -/
def mongoc_delete_many_opts_t : Struct :=
  Struct.ofList [
    .single ("crud", { type := "mongoc_crud_opts_t" }),
    .single collation_option]

/-- Registry entry `mongoc_update_one_opts_t`. -/
def mongoc_update_one_opts_t : Struct :=
  { Struct.ofList [
      .single ("update", { type := "mongoc_update_opts_t" }),
      .single array_filters_option]
    with defaults := [("validate", Val.str "_mongoc_default_update_vflags")] }

/-- Registry entry `mongoc_update_many_opts_t`. -/
def mongoc_update_many_opts_t : Struct :=
  { Struct.ofList [
      .single ("update", { type := "mongoc_update_opts_t" }),
      .single array_filters_option]
    with defaults := [("validate", Val.str "_mongoc_default_update_vflags")] }

/-- Registry entry `mongoc_replace_one_opts_t`. -/
def mongoc_replace_one_opts_t : Struct :=
  { Struct.ofList [
      .single ("update", { type := "mongoc_update_opts_t" })]
    with defaults := [("validate", Val.str "_mongoc_default_replace_vflags")] }

/-- Registry entry `mongoc_bulk_opts_t`. -/
def mongoc_bulk_opts_t : Struct :=
  { Struct.ofList [
      write_concern_option,
      .single ordered_option,
      .single session_option]
    with allow_extra := false, defaults := [("ordered", Val.str "true")] }

/-- Registry entry `mongoc_bulk_insert_opts_t`. -/
def mongoc_bulk_insert_opts_t : Struct :=
  { Struct.ofList [
      .single validate_option,
      .single bypass_option]
    with allow_extra := false,
         defaults := [("validate", Val.str "_mongoc_default_insert_vflags")] }

/-- Registry entry `mongoc_bulk_update_opts_t` (a `Shared` struct). -/
def mongoc_bulk_update_opts_t : Struct :=
  Shared.ofList [
    .single validate_option,
    .single bypass_option,
    .single collation_option,
    .single ("upsert", {
      type := "bool",
      help := some "If true, insert a document if none match ``selector``." }),
    .single ("multi", { type := "bool", hidden := true })]

/-- Registry entry `mongoc_bulk_update_one_opts_t`. -/
def mongoc_bulk_update_one_opts_t : Struct :=
  { Struct.ofList [
      .single ("update", { type := "mongoc_bulk_update_opts_t" })]
    with allow_extra := false,
         defaults := [("multi", Val.str "false"),
                      ("validate", Val.str "_mongoc_default_update_vflags")] }

/-- Registry entry `mongoc_bulk_update_many_opts_t`. -/
def mongoc_bulk_update_many_opts_t : Struct :=
  { Struct.ofList [
      .single ("update", { type := "mongoc_bulk_update_opts_t" })]
    with allow_extra := false,
         defaults := [("multi", Val.str "true"),
                      ("validate", Val.str "_mongoc_default_update_vflags")] }

/-- Registry entry `mongoc_bulk_replace_one_opts_t`. -/
def mongoc_bulk_replace_one_opts_t : Struct :=
  { Struct.ofList [
      .single ("update", { type := "mongoc_bulk_update_opts_t" })]
    with allow_extra := false,
         defaults := [("multi", Val.str "false"),
                      ("validate", Val.str "_mongoc_default_replace_vflags")] }

/-- Registry entry `mongoc_bulk_remove_opts_t` (a `Shared` struct). -/
def mongoc_bulk_remove_opts_t : Struct :=
  Shared.ofList [
    .single collation_option,
    .single ("limit", { type := "int32_t", hidden := true })]

/-- Registry entry `mongoc_bulk_remove_one_opts_t`. -/
def mongoc_bulk_remove_one_opts_t : Struct :=
  { Struct.ofList [
      .single ("remove", { type := "mongoc_bulk_remove_opts_t" })]
    with allow_extra := false, defaults := [("limit", Val.int 1)] }

/-- Registry entry `mongoc_bulk_remove_many_opts_t`. -/
def mongoc_bulk_remove_many_opts_t : Struct :=
  { Struct.ofList [
      .single ("remove", { type := "mongoc_bulk_remove_opts_t" })]
    with allow_extra := false, defaults := [("limit", Val.int 0)] }

/-- Registry entry `mongoc_create_index_opts_t` (opts_name="command_opts"). -/
def mongoc_create_index_opts_t : Struct :=
  { Struct.ofList [
      write_concern_option,
      .single session_option]
    with opts_name := "command_opts" }

/-- Registry entry `mongoc_read_write_opts_t`. -/
def mongoc_read_write_opts_t : Struct :=
  Struct.ofList [
    .single read_concern_option,
    write_concern_option,
    .single session_option,
    .single collation_option,
    .single server_option]

/-- Registry entry `mongoc_read_opts_t` (generate_code=False; only for
documentation). -/
def mongoc_read_opts_t : Struct :=
  { Struct.ofList [
      .single read_concern_option,
      .single session_option,
      .single collation_option,
      .single server_option]
    with generate_code := false }

/-- Registry entry `mongoc_write_opts_t` (generate_code=False). -/
def mongoc_write_opts_t : Struct :=
  { Struct.ofList [
      write_concern_option,
      .single session_option,
      .single collation_option,
      .single server_option]
    with generate_code := false }

/-- The `opts_structs` registry: the ordered mapping from struct type
name to struct definition, in source order. -/
def opts_structs : List (String × Struct) := [
  ("mongoc_find_one_opts_t", mongoc_find_one_opts_t),
  ("mongoc_crud_opts_t", mongoc_crud_opts_t),
  ("mongoc_update_opts_t", mongoc_update_opts_t),
  ("mongoc_insert_one_opts_t", mongoc_insert_one_opts_t),
  ("mongoc_insert_many_opts_t", mongoc_insert_many_opts_t),
  ("mongoc_delete_one_opts_t", mongoc_delete_one_opts_t),
  ("mongoc_delete_many_opts_t", mongoc_delete_many_opts_t),
  ("mongoc_update_one_opts_t", mongoc_update_one_opts_t),
  ("mongoc_update_many_opts_t", mongoc_update_many_opts_t),
  ("mongoc_replace_one_opts_t", mongoc_replace_one_opts_t),
  ("mongoc_bulk_opts_t", mongoc_bulk_opts_t),
  ("mongoc_bulk_insert_opts_t", mongoc_bulk_insert_opts_t),
  ("mongoc_bulk_update_opts_t", mongoc_bulk_update_opts_t),
  ("mongoc_bulk_update_one_opts_t", mongoc_bulk_update_one_opts_t),
  ("mongoc_bulk_update_many_opts_t", mongoc_bulk_update_many_opts_t),
  ("mongoc_bulk_replace_one_opts_t", mongoc_bulk_replace_one_opts_t),
  ("mongoc_bulk_remove_opts_t", mongoc_bulk_remove_opts_t),
  ("mongoc_bulk_remove_one_opts_t", mongoc_bulk_remove_one_opts_t),
  ("mongoc_bulk_remove_many_opts_t", mongoc_bulk_remove_many_opts_t),
  ("mongoc_create_index_opts_t", mongoc_create_index_opts_t),
  ("mongoc_read_write_opts_t", mongoc_read_write_opts_t),
  ("mongoc_read_opts_t", mongoc_read_opts_t),
  ("mongoc_write_opts_t", mongoc_write_opts_t)]

/-- Membership test and lookup `opts_structs[name]`, as one partial
lookup: `the_type in opts_structs` is `(lookupStruct the_type).isSome`. -/
def lookupStruct (name : String) : Option Struct :=
  (opts_structs.find? (fun p => p.1 == name)).map Prod.snd

/-- Fuel large enough for any acyclic chain of struct references: the
number of registered structs. -/
def registryFuel : Nat := opts_structs.length

/-- A resolved field triple `(path, option_name, record)`. -/
abbrev PathTriple := String × String × OptInfo

/-- The loop body of `paths` for one `(option_name, info)` pair, with
the recursive resolution of a nested struct's items supplied as
`recur`: compute the storage field (`info['field']` if present, else
the option name); if the type names a registered struct, resolve it
and re-emit each sub-triple with the field as a dotted prefix;
otherwise emit the single leaf triple. -/
def pathGroupWith (recur : List (String × OptInfo) → Option (List PathTriple))
    (option_name : String) (info : OptInfo) : Option (List PathTriple) :=
  match lookupStruct info.type with
  | some sub_struct =>
    (recur sub_struct.items).map
      (fun l => l.map (fun t => (info.field.getD option_name ++ "." ++ t.1, t.2.1, t.2.2)))
  | none => some [(info.field.getD option_name, option_name, info)]

/-- Concatenate the groups produced for each item of a struct in
declaration order, failing if any group fails. -/
def joinGroups (f : String × OptInfo → Option (List PathTriple)) :
    List (String × OptInfo) → Option (List PathTriple)
  | [] => some []
  | it :: rest =>
    match f it, joinGroups f rest with
    | some g, some t => some (g ++ t)
    | _, _ => none

/-- `paths(struct)`, the recursive path resolver, with explicit fuel
consumed at each nested-struct recursion; `none` means the fuel ran
out before resolution finished. -/
def pathsF : Nat → List (String × OptInfo) → Option (List PathTriple)
  | 0 => fun _ => none
  | fuel + 1 => fun items => joinGroups (fun it => pathGroupWith (pathsF fuel) it.1 it.2) items

/-- `paths(struct)` at the registry-wide sufficient fuel. -/
def paths (s : Struct) : Option (List PathTriple) := pathsF registryFuel s.items

/-- The group of triples the resolver emits for one `(option_name,
info)` pair at a given fuel. -/
def pathGroup (fuel : Nat) (option_name : String) (info : OptInfo) : Option (List PathTriple) :=
  pathGroupWith (pathsF fuel) option_name info

/-- `path_to(the_type, the_field)`: scan the resolver's output for the
struct registered under `the_type` until the option name matches,
returning its full dotted path; raise an error if no option with that
name exists. A missing registry key or exhausted fuel also errors. -/
def path_to (the_type the_field : String) : Except String String :=
  match lookupStruct the_type with
  | none => Except.error ("KeyError: " ++ the_type)
  | some s =>
    match pathsF registryFuel s.items with
    | none => Except.error "maximum recursion depth exceeded"
    | some ps =>
      match ps.find? (fun t => t.2.1 == the_field) with
      | some t => Except.ok t.1
      | none => Except.error ("No field " ++ the_field ++ " in " ++ the_type)

/-- The loop body of `document_opts` for one option, with the
recursive documentation of a nested struct's items supplied as
`recur`: internal or hidden options contribute nothing; a registered
nested struct type is documented inline; any remaining option must
carry help, the failed assertion being the error. -/
def docGroupWith (recur : List (String × OptInfo) → Except String (List (String × String)))
    (option_name : String) (info : OptInfo) : Except String (List (String × String)) :=
  if info.internal || info.hidden then Except.ok []
  else
    match lookupStruct info.type with
    | some sub_struct => recur sub_struct.items
    | none =>
      match info.help with
      | some h => Except.ok [(option_name, h)]
      | none => Except.error ("No help for " ++ option_name)

/-- Concatenate the documented bullets of each option in declaration
order, propagating the first error raised. -/
def docJoin (f : String × OptInfo → Except String (List (String × String))) :
    List (String × OptInfo) → Except String (List (String × String))
  | [] => Except.ok []
  | it :: rest =>
    match f it, docJoin f rest with
    | Except.ok g, Except.ok t => Except.ok (g ++ t)
    | Except.error e, _ => Except.error e
    | _, Except.error e => Except.error e

/-- `document_opts(struct, f)`, with explicit fuel consumed at each
nested-struct recursion, modelling the written bullet lines as the
returned `(option_name, help)` pairs. -/
def document_opts : Nat → List (String × OptInfo) → Except String (List (String × String))
  | 0 => fun _ => Except.error "maximum recursion depth exceeded"
  | fuel + 1 => fun items => docJoin (fun it => docGroupWith (document_opts fuel) it.1 it.2) items

/-- Whether an extraction succeeded. -/
def exceptOk {ε α : Type} : Except ε α → Bool
  | Except.ok _ => true
  | Except.error _ => false

/-- The struct type names a struct's fields directly reference into
the registry. -/
def directRefs (name : String) : List String :=
  match lookupStruct name with
  | some s => s.items.filterMap (fun it => if (lookupStruct it.2.type).isSome then some it.2.type else none)
  | none => []

/-- `b` is reachable from `a` in at most `n` steps of direct struct
references. -/
def reachesIn : Nat → String → String → Bool
  | 0 => fun _ _ => false
  | n + 1 => fun a b => (directRefs a).any (fun c => c == b || reachesIn n c b)

/-- A rank certifying acyclicity of the struct-reference graph: every
direct reference strictly decreases it. -/
def structRank (name : String) : Nat :=
  if name == "mongoc_crud_opts_t" || name == "mongoc_bulk_update_opts_t"
      || name == "mongoc_bulk_remove_opts_t" then 0
  else if name == "mongoc_update_opts_t" then 1
  else 2

/-- The struct names visited when documentation extraction starts from
`name`, to the given reference depth. -/
def reachableF : Nat → String → List String
  | 0 => fun n => [n]
  | fuel + 1 => fun n => n :: (directRefs n).flatMap (reachableF fuel)

/-- The struct names the documentation pass visits: structs with
`generate_rst` set, together with everything they transitively
reference as a field type. -/
def docVisited : List String :=
  ((opts_structs.filter (fun p => p.2.generate_rst)).map Prod.fst).flatMap
    (reachableF registryFuel)

/-- Every record the documentation pass can reach that is neither a
nested-struct reference nor internal nor hidden carries help. -/
def helpVisitedCheck : Bool :=
  docVisited.all (fun n =>
    match lookupStruct n with
    | some s => s.items.all (fun it =>
        (lookupStruct it.2.type).isSome || it.2.internal || it.2.hidden || it.2.help.isSome)
    | none => true)

/-- Resolution succeeds on every registered struct: fuel 3 (the
maximal nesting depth) is enough. -/
def pathsOkCheck : Bool := opts_structs.all (fun p => (pathsF 3 p.2.items).isSome)

/-- The dotted paths of each registered struct's flattening are
pairwise distinct. -/
def pathsUniqueCheck : Bool :=
  opts_structs.all (fun p =>
    match paths p.2 with
    | some l => decide (l.map (fun t => t.1)).Nodup
    | none => false)

/-- Every help string present anywhere in the registry is non-empty. -/
def helpNonEmptyCheck : Bool :=
  opts_structs.all (fun p => p.2.items.all
    (fun it => match it.2.help with | some h => !(h == "") | none => true))

/-- On every registered struct, a successful documentation extraction
emits exactly the resolver's triples with internal and hidden records
filtered out, in the resolver's order, pairing each option name with
its record's help. -/
def docMatchesCheck : Bool :=
  opts_structs.all (fun p =>
    match document_opts registryFuel p.2.items, paths p.2 with
    | Except.ok docs, some ps =>
      docs == (ps.filter (fun t => !(t.2.2.internal || t.2.2.hidden))).map
        (fun t => (t.2.1, t.2.2.help.getD ""))
    | Except.error _, some _ => true
    | _, none => false)

/-- Every direct struct reference strictly decreases `structRank`. -/
def rankEdgeCheck : Bool :=
  opts_structs.all (fun p =>
    (directRefs p.1).all (fun c => decide (structRank c < structRank p.1)))

lemma flatten_nil {α : Type} : flatten ([] : List (Item α)) = [] := rfl

lemma flatten_cons {α : Type} (x : Item α) (rest : List (Item α)) :
    flatten (x :: rest) = flattenOne x ++ flatten rest := by
  simp [flatten]

lemma flattenOne_listOf {α : Type} :
    ∀ l : List (Item α), flattenOne (Item.listOf l) = flatten l := by
  intro l
  induction l with
  | nil => rfl
  | cons x rest ih =>
    have h1 : Item.listOf (x :: rest) = Item.cons x (Item.listOf rest) := rfl
    rw [h1, flatten_cons]
    simp only [flattenOne]
    rw [ih]

lemma flatten_map_single {α : Type} : ∀ l : List α, flatten (l.map Item.single) = l := by
  intro l
  induction l with
  | nil => rfl
  | cons a rest ih =>
    rw [List.map_cons, flatten_cons, ih]
    rfl

lemma flatten_append {α : Type} :
    ∀ xs ys : List (Item α), flatten (xs ++ ys) = flatten xs ++ flatten ys := by
  intro xs ys
  simp [flatten]

lemma lookupStruct_mem {a : String} {s : Struct} (h : lookupStruct a = some s) :
    (a, s) ∈ opts_structs := by
  unfold lookupStruct at h
  cases hf : opts_structs.find? (fun p => p.1 == a) with
  | none => rw [hf] at h; simp at h
  | some p =>
    rw [hf] at h
    simp at h
    have hmem := List.mem_of_find?_eq_some hf
    have hpred := List.find?_some hf
    have h1 : p.1 = a := by simpa using hpred
    obtain ⟨p1, p2⟩ := p
    cases h1
    cases h
    exact hmem

lemma joinGroups_mono {f g : String × OptInfo → Option (List PathTriple)}
    (hfg : ∀ it l, f it = some l → g it = some l) :
    ∀ (items : List (String × OptInfo)) (r : List PathTriple),
      joinGroups f items = some r → joinGroups g items = some r := by
  intro items
  induction items with
  | nil => intro r h; exact h
  | cons it rest ih =>
    intro r h
    simp only [joinGroups] at h ⊢
    cases hf : f it with
    | none => rw [hf] at h; simp at h
    | some g1 =>
      rw [hf] at h
      cases hj : joinGroups f rest with
      | none => rw [hj] at h; simp at h
      | some t1 =>
        rw [hj] at h
        rw [hfg it g1 hf, ih t1 hj]
        exact h

lemma pathsF_mono : ∀ (fuel : Nat) (items : List (String × OptInfo)) (r : List PathTriple),
    pathsF fuel items = some r → pathsF (fuel + 1) items = some r := by
  intro fuel
  induction fuel with
  | zero => intro items r h; simp [pathsF] at h
  | succ f ihf =>
    intro items r h
    have h' : joinGroups (fun it => pathGroupWith (pathsF f) it.1 it.2) items = some r := h
    have goal' : joinGroups (fun it => pathGroupWith (pathsF (f + 1)) it.1 it.2) items = some r := by
      refine joinGroups_mono ?_ items r h'
      intro it l hit
      unfold pathGroupWith at hit ⊢
      cases hl : lookupStruct it.2.type with
      | none => rw [hl] at hit; exact hit
      | some sub =>
        rw [hl] at hit
        have hit' : Option.map
            (fun l => List.map (fun t => (it.2.field.getD it.1 ++ "." ++ t.1, t.2.1, t.2.2)) l)
            (pathsF f sub.items) = some l := hit
        show Option.map
            (fun l => List.map (fun t => (it.2.field.getD it.1 ++ "." ++ t.1, t.2.1, t.2.2)) l)
            (pathsF (f + 1) sub.items) = some l
        cases hp : pathsF f sub.items with
        | none => rw [hp] at hit'; simp at hit'
        | some pl =>
          rw [hp] at hit'
          rw [ihf sub.items pl hp]
          exact hit'
    exact goal'

lemma pathsF_le_mono {fuel fuel' : Nat} (hle : fuel ≤ fuel')
    {items : List (String × OptInfo)} {r : List PathTriple}
    (h : pathsF fuel items = some r) : pathsF fuel' items = some r := by
  induction hle with
  | refl => exact h
  | step _ ih => exact pathsF_mono _ _ _ ih

lemma paths_registry_some {name : String} {s : Struct} (h : lookupStruct name = some s) :
    ∃ r, pathsF 3 s.items = some r := by
  have hmem := lookupStruct_mem h
  have hall := List.all_eq_true.mp (show pathsOkCheck = true from rfl) _ hmem
  exact Option.isSome_iff_exists.mp (by simpa using hall)

lemma rank_edge : ∀ a c, c ∈ directRefs a → structRank c < structRank a := by
  intro a c hc
  cases hl : lookupStruct a with
  | none =>
    unfold directRefs at hc
    rw [hl] at hc
    simp at hc
  | some s =>
    have hmem := lookupStruct_mem hl
    have hall := List.all_eq_true.mp (show rankEdgeCheck = true from rfl) _ hmem
    have h2 := List.all_eq_true.mp hall c hc
    exact of_decide_eq_true h2

lemma reaches_rank : ∀ n a b, reachesIn n a b = true → structRank b < structRank a := by
  intro n
  induction n with
  | zero => intro a b h; simp [reachesIn] at h
  | succ m ih =>
    intro a b h
    simp only [reachesIn] at h
    obtain ⟨c, hc, hcb⟩ := List.any_eq_true.mp h
    rcases (by simpa using hcb : c = b ∨ reachesIn m c b = true) with h1 | h2
    · subst h1; exact rank_edge a c hc
    · exact lt_trans (ih c b h2) (rank_edge a c hc)

/-- C6: flatten applied to an already-flat sequence (one with no list
elements) yields the same sequence; flatten distributes over
concatenation of nested item lists; a list element is expanded in
place; and nesting is expanded to arbitrary depth, order preserved
throughout. -/
theorem flatten_algebra :
    ∀ (α : Type) (l : List α) (xs ys zs : List (Item α)),
      flatten (l.map Item.single) = l ∧
      flatten (xs ++ ys) = flatten xs ++ flatten ys ∧
      flatten (Item.listOf xs :: zs) = flatten xs ++ flatten zs ∧
      flatten [Item.listOf [Item.listOf xs]] = flatten xs := by
  intro α l xs ys zs
  refine ⟨flatten_map_single l, flatten_append xs ys, ?_, ?_⟩
  · rw [flatten_cons, flattenOne_listOf]
  · rw [flatten_cons, flattenOne_listOf, flatten_cons, flattenOne_listOf]
    simp [flatten_nil]

/-- C7: the shared `mongoc_bulk_update_opts_t` struct is embedded in
both bulk update owners with different `multi` defaults; each owner's
default lookup returns its own override for every fallback, while the
shared struct itself has no `multi` default and returns the fallback. -/
theorem default_override :
    ∀ fb : Val,
      Struct.default mongoc_bulk_update_one_opts_t "multi" fb = Val.str "false" ∧
      Struct.default mongoc_bulk_update_many_opts_t "multi" fb = Val.str "true" ∧
      Struct.default mongoc_bulk_update_opts_t "multi" fb = fb := by
  intro fb
  exact ⟨rfl, rfl, rfl⟩

/-- C2 (counterexample): the claimed invariant fails on the registry
as stated: the `projection` record of `mongoc_find_one_opts_t` is
neither internal nor hidden and carries no help. -/
theorem help_invariant_cex :
    ¬ (∀ p ∈ opts_structs, ∀ it ∈ p.2.items,
        it.2.internal = false → it.2.hidden = false → it.2.help.isSome = true) := by
  intro h
  have hm : ("mongoc_find_one_opts_t", mongoc_find_one_opts_t) ∈ opts_structs := by decide
  have hit : ("projection", ({ type := "document" } : OptInfo)) ∈ mongoc_find_one_opts_t.items := by
    decide
  exact absurd (h _ hm _ hit rfl rfl) (by decide)

/-- C2 (amended): in every struct the documentation pass visits
(those with `generate_rst`, plus everything they transitively
reference as a field type), every option record that is neither a
nested-struct reference nor internal nor hidden carries help. -/
theorem help_invariant_visited : helpVisitedCheck = true := rfl

/-- C5: for every registered struct, resolution succeeds and the
dotted paths it produces are pairwise distinct within that struct's
flattening. -/
theorem paths_unique : pathsUniqueCheck = true := rfl

/-- C10: the documentation pass completes on the concrete registry:
extraction succeeds for every struct with `generate_rst` set;
`mongoc_find_one_opts_t` has `generate_rst` false, is not among the
structs the pass visits, and its missing help therefore goes
undetected even though extraction on it would fail. -/
theorem doc_pass_completes :
    ((opts_structs.filter (fun p => p.2.generate_rst)).all
        (fun p => exceptOk (document_opts registryFuel p.2.items)) = true) ∧
    mongoc_find_one_opts_t.generate_rst = false ∧
    docVisited.contains "mongoc_find_one_opts_t" = false ∧
    exceptOk (document_opts registryFuel mongoc_find_one_opts_t.items) = false :=
  ⟨rfl, rfl, rfl, rfl⟩

set_option maxRecDepth 4000 in
/-- C1: the resolver emits, for each option in declaration order, one
group of triples: the storage field is `record.field` if present and
the option name otherwise; when the record's type is a registry key,
every sub-triple of the nested struct's resolution is re-emitted with
the field as a dotted prefix, and otherwise the single leaf triple is
emitted. In particular resolving `mongoc_insert_one_opts_t` (field
`crud` of nested type `mongoc_crud_opts_t`, which holds the leaf
option `sessionId` with storage field `client_session`) yields the
path `crud.client_session` for `sessionId`. -/
theorem paths_resolver_correct :
    (∀ (fuel : Nat) (option_name : String) (info : OptInfo) (rest : List (String × OptInfo)),
      pathsF (fuel + 1) ((option_name, info) :: rest) =
        match lookupStruct info.type with
        | some sub_struct =>
          (match pathsF fuel sub_struct.items, pathsF (fuel + 1) rest with
           | some subs, some tail =>
             some (subs.map (fun t =>
               (info.field.getD option_name ++ "." ++ t.1, t.2.1, t.2.2)) ++ tail)
           | _, _ => none)
        | none =>
          (match pathsF (fuel + 1) rest with
           | some tail => some ((info.field.getD option_name, option_name, info) :: tail)
           | none => none)) ∧
    (∃ r, paths mongoc_insert_one_opts_t = some r ∧
      ∃ i, ("crud.client_session", "sessionId", i) ∈ r) := by
  constructor
  · intro fuel option_name info rest
    cases hl : lookupStruct info.type with
    | some sub =>
      show (match pathGroupWith (pathsF fuel) option_name info, pathsF (fuel + 1) rest with
            | some g, some t => some (g ++ t)
            | _, _ => none) =
          (match pathsF fuel sub.items, pathsF (fuel + 1) rest with
           | some subs, some tail =>
             some (subs.map (fun t =>
               (info.field.getD option_name ++ "." ++ t.1, t.2.1, t.2.2)) ++ tail)
           | _, _ => none)
      have hg : pathGroupWith (pathsF fuel) option_name info =
          Option.map
            (fun l => List.map
              (fun t => (info.field.getD option_name ++ "." ++ t.1, t.2.1, t.2.2)) l)
            (pathsF fuel sub.items) := by
        unfold pathGroupWith
        rw [hl]
      rw [hg]
      cases hp : pathsF fuel sub.items <;> cases ht : pathsF (fuel + 1) rest <;> rfl
    | none =>
      show (match pathGroupWith (pathsF fuel) option_name info, pathsF (fuel + 1) rest with
            | some g, some t => some (g ++ t)
            | _, _ => none) =
          (match pathsF (fuel + 1) rest with
           | some tail => some ((info.field.getD option_name, option_name, info) :: tail)
           | none => none)
      have hg : pathGroupWith (pathsF fuel) option_name info =
          some [(info.field.getD option_name, option_name, info)] := by
        unfold pathGroupWith
        rw [hl]
      rw [hg]
      cases ht : pathsF (fuel + 1) rest <;> rfl
  · exact ⟨_, rfl, session_option.2, by decide⟩

/-- C3: for every struct-type-name present in the registry and every
target option name, resolution of the struct succeeds and `path_to`
returns the full dotted path of the first resolver triple whose option
name matches, while it raises the lookup error exactly when no option
with that name exists anywhere in the struct's transitive closure. -/
theorem path_to_correct :
    ∀ the_type : String, (lookupStruct the_type).isSome = true →
    ∀ the_field : String,
      ∃ s ps, lookupStruct the_type = some s ∧ paths s = some ps ∧
        ((∃ t, ps.find? (fun u => u.2.1 == the_field) = some t ∧ t ∈ ps ∧
            t.2.1 = the_field ∧ path_to the_type the_field = Except.ok t.1) ∨
         ((∀ t ∈ ps, ¬ t.2.1 = the_field) ∧
          path_to the_type the_field =
            Except.error ("No field " ++ the_field ++ " in " ++ the_type))) := by
  intro the_type hsome the_field
  obtain ⟨s, hs⟩ := Option.isSome_iff_exists.mp hsome
  obtain ⟨r3, hr3⟩ := paths_registry_some hs
  have hps : paths s = some r3 := pathsF_le_mono (by decide) hr3
  have hps' : pathsF registryFuel s.items = some r3 := hps
  refine ⟨s, r3, hs, hps, ?_⟩
  cases hfind : r3.find? (fun u => u.2.1 == the_field) with
  | some t =>
    refine Or.inl ⟨t, rfl, List.mem_of_find?_eq_some hfind, ?_, ?_⟩
    · have := List.find?_some hfind
      simpa using this
    · simp only [path_to, hs, hps', hfind]
  | none =>
    refine Or.inr ⟨?_, ?_⟩
    · intro t ht heq
      have hnone := List.find?_eq_none.mp hfind t ht
      exact hnone (by simpa using heq)
    · simp only [path_to, hs, hps', hfind]

/-- Witness for C3: the registry contains `mongoc_update_one_opts_t`
and the lookup of `writeConcern` in it resolves. -/
theorem path_to_correct_witness :
    (lookupStruct "mongoc_update_one_opts_t").isSome = true ∧
    (∃ s ps, lookupStruct "mongoc_update_one_opts_t" = some s ∧ paths s = some ps ∧
      ((∃ t, ps.find? (fun u => u.2.1 == "writeConcern") = some t ∧ t ∈ ps ∧
          t.2.1 = "writeConcern" ∧
          path_to "mongoc_update_one_opts_t" "writeConcern" = Except.ok t.1) ∨
       ((∀ t ∈ ps, ¬ t.2.1 = "writeConcern") ∧
        path_to "mongoc_update_one_opts_t" "writeConcern" =
          Except.error ("No field " ++ "writeConcern" ++ " in " ++ "mongoc_update_one_opts_t")))) :=
  ⟨rfl, path_to_correct "mongoc_update_one_opts_t" rfl "writeConcern"⟩

/-- C9: the struct-reference graph of the registry is acyclic (no
struct name reaches itself in any number of steps), and resolution of
every registered struct succeeds already at fuel 3 — the maximal
nesting depth — with the same result at every larger fuel. -/
theorem paths_terminates :
    (∀ name ∈ opts_structs.map Prod.fst, ∀ n, reachesIn n name name = false) ∧
    (∀ p ∈ opts_structs, ∃ r, pathsF 3 p.2.items = some r ∧
      ∀ fuel, 3 ≤ fuel → pathsF fuel p.2.items = some r) := by
  constructor
  · intro name _ n
    cases h : reachesIn n name name with
    | false => rfl
    | true => exact absurd (reaches_rank n name name h) (lt_irrefl _)
  · intro p hp
    have hall := List.all_eq_true.mp (show pathsOkCheck = true from rfl) _ hp
    obtain ⟨r, hr⟩ := Option.isSome_iff_exists.mp (by simpa using hall)
    exact ⟨r, hr, fun fuel hf => pathsF_le_mono hf hr⟩

/-- Witness for C9: instantiated at `mongoc_update_one_opts_t`, with
the acyclicity part applied at 23 steps and the fuel part at fuel 5. -/
theorem paths_terminates_witness :
    (("mongoc_update_one_opts_t", mongoc_update_one_opts_t) ∈ opts_structs) ∧
    reachesIn 23 "mongoc_update_one_opts_t" "mongoc_update_one_opts_t" = false ∧
    (∃ r, pathsF 3 mongoc_update_one_opts_t.items = some r ∧
      pathsF 5 mongoc_update_one_opts_t.items = some r) := by
  have hm : ("mongoc_update_one_opts_t", mongoc_update_one_opts_t) ∈ opts_structs := by decide
  have h1 := paths_terminates.1 "mongoc_update_one_opts_t" (List.mem_map.mpr ⟨_, hm, rfl⟩) 23
  obtain ⟨r, h3, h5⟩ := paths_terminates.2 _ hm
  exact ⟨hm, h1, r, h3, h5 5 (by decide)⟩

lemma doc_fail_aux : ∀ (fuel : Nat) (items : List (String × OptInfo)),
    (∃ it ∈ items, lookupStruct it.2.type = none ∧ it.2.internal = false ∧
      it.2.hidden = false ∧ it.2.help = none) →
    ∃ e, document_opts fuel items = Except.error e := by
  intro fuel
  cases fuel with
  | zero => intro items _; exact ⟨"maximum recursion depth exceeded", rfl⟩
  | succ f =>
    intro items
    induction items with
    | nil =>
      rintro ⟨it, hmem, -⟩
      simp at hmem
    | cons head rest ih =>
      rintro ⟨it, hmem, hlk, hint, hhid, hhelp⟩
      rw [List.mem_cons] at hmem
      rcases hmem with heq | hmem2
      · subst heq
        refine ⟨"No help for " ++ it.1, ?_⟩
        show (match docGroupWith (document_opts f) it.1 it.2,
              docJoin (fun q => docGroupWith (document_opts f) q.1 q.2) rest with
              | Except.ok g, Except.ok t => Except.ok (g ++ t)
              | Except.error e, _ => Except.error e
              | _, Except.error e => Except.error e) =
            Except.error ("No help for " ++ it.1)
        have hg : docGroupWith (document_opts f) it.1 it.2 =
            Except.error ("No help for " ++ it.1) := by
          unfold docGroupWith
          rw [hint, hhid, hlk, hhelp]
          rfl
        rw [hg]
        cases hj : docJoin (fun q => docGroupWith (document_opts f) q.1 q.2) rest <;> rfl
      · obtain ⟨e, he⟩ := ih ⟨it, hmem2, hlk, hint, hhid, hhelp⟩
        have he' : docJoin (fun q => docGroupWith (document_opts f) q.1 q.2) rest =
            Except.error e := he
        show ∃ e2, (match docGroupWith (document_opts f) head.1 head.2,
              docJoin (fun q => docGroupWith (document_opts f) q.1 q.2) rest with
              | Except.ok g, Except.ok t => Except.ok (g ++ t)
              | Except.error e, _ => Except.error e
              | _, Except.error e => Except.error e) = Except.error e2
        rw [he']
        cases hg : docGroupWith (document_opts f) head.1 head.2 with
        | ok gl => exact ⟨e, rfl⟩
        | error e2 => exact ⟨e2, rfl⟩

/-- C4: a struct containing an option record with no help that is
neither internal nor hidden nor a nested-struct reference makes
documentation extraction fail with an error at every fuel, rather than
silently emitting an empty help string; moreover every help string
present in the registry is non-empty. -/
theorem document_opts_missing_help_fails :
    (∀ (fuel : Nat) (items : List (String × OptInfo)),
      (∃ it ∈ items, lookupStruct it.2.type = none ∧ it.2.internal = false ∧
        it.2.hidden = false ∧ it.2.help = none) →
      ∃ e, document_opts fuel items = Except.error e) ∧
    helpNonEmptyCheck = true :=
  ⟨doc_fail_aux, rfl⟩

/-- Witness for C4: `mongoc_find_one_opts_t` contains the helpless
`projection` record and its documentation extraction errors. -/
theorem document_opts_missing_help_fails_witness :
    (∃ it ∈ mongoc_find_one_opts_t.items, lookupStruct it.2.type = none ∧
      it.2.internal = false ∧ it.2.hidden = false ∧ it.2.help = none) ∧
    (∃ e, document_opts registryFuel mongoc_find_one_opts_t.items = Except.error e) := by
  have hq : ∃ it ∈ mongoc_find_one_opts_t.items, lookupStruct it.2.type = none ∧
      it.2.internal = false ∧ it.2.hidden = false ∧ it.2.help = none :=
    ⟨("projection", { type := "document" }), by decide, rfl, rfl, rfl, rfl⟩
  exact ⟨hq, document_opts_missing_help_fails.1 registryFuel _ hq⟩

lemma doc_sub_paths : ∀ (fuel : Nat) (items : List (String × OptInfo))
    (docs : List (String × String)) (ps : List PathTriple),
    document_opts fuel items = Except.ok docs →
    pathsF fuel items = some ps →
    ∀ d ∈ docs, ∃ pth i, (pth, d.1, i) ∈ ps ∧ i.internal = false ∧ i.hidden = false ∧
      i.help = some d.2 := by
  intro fuel
  induction fuel with
  | zero =>
    intro items docs ps hd hp
    simp [document_opts] at hd
  | succ f ihf =>
    intro items
    induction items with
    | nil =>
      intro docs ps hd hp d hdmem
      have hd0 : ([] : List (String × String)) = docs :=
        Except.ok.inj (hd : Except.ok [] = Except.ok docs)
      rw [← hd0] at hdmem
      simp at hdmem
    | cons head rest ihr =>
      intro docs ps hd hp d hdmem
      have hd' : (match docGroupWith (document_opts f) head.1 head.2,
            docJoin (fun q => docGroupWith (document_opts f) q.1 q.2) rest with
            | Except.ok g, Except.ok t => Except.ok (g ++ t)
            | Except.error e, _ => Except.error e
            | _, Except.error e => Except.error e) = Except.ok docs := hd
      have hp' : (match pathGroupWith (pathsF f) head.1 head.2,
            joinGroups (fun q => pathGroupWith (pathsF f) q.1 q.2) rest with
            | some g, some t => some (g ++ t)
            | _, _ => none) = some ps := hp
      cases hgd : docGroupWith (document_opts f) head.1 head.2 with
      | error e =>
        rw [hgd] at hd'
        cases hjd : docJoin (fun q => docGroupWith (document_opts f) q.1 q.2) rest <;>
          rw [hjd] at hd' <;> simp at hd'
      | ok gdocs =>
        rw [hgd] at hd'
        cases hjd : docJoin (fun q => docGroupWith (document_opts f) q.1 q.2) rest with
        | error e => rw [hjd] at hd'; simp at hd'
        | ok tdocs =>
          rw [hjd] at hd'
          have hdocs : gdocs ++ tdocs = docs := Except.ok.inj hd'
          cases hgp : pathGroupWith (pathsF f) head.1 head.2 with
          | none =>
            rw [hgp] at hp'
            cases hjp : joinGroups (fun q => pathGroupWith (pathsF f) q.1 q.2) rest <;>
              rw [hjp] at hp' <;> simp at hp'
          | some gps =>
            rw [hgp] at hp'
            cases hjp : joinGroups (fun q => pathGroupWith (pathsF f) q.1 q.2) rest with
            | none => rw [hjp] at hp'; simp at hp'
            | some tps =>
              rw [hjp] at hp'
              have hps : gps ++ tps = ps := Option.some.inj hp'
              subst hdocs
              subst hps
              rcases List.mem_append.mp hdmem with hdg | hdt
              · unfold docGroupWith at hgd
                by_cases hcond : (head.2.internal || head.2.hidden) = true
                · rw [if_pos hcond] at hgd
                  have h0 : ([] : List (String × String)) = gdocs := Except.ok.inj hgd
                  rw [← h0] at hdg
                  simp at hdg
                · rw [if_neg hcond] at hgd
                  have hcf : (head.2.internal || head.2.hidden) = false := by
                    simpa using hcond
                  have hi1 : head.2.internal = false := by
                    cases h : head.2.internal
                    · rfl
                    · rw [h] at hcf; simp at hcf
                  have hi2 : head.2.hidden = false := by
                    cases h : head.2.hidden
                    · rfl
                    · rw [h] at hcf; simp at hcf
                  unfold pathGroupWith at hgp
                  cases hl : lookupStruct head.2.type with
                  | some sub =>
                    rw [hl] at hgd hgp
                    have hgd2 : document_opts f sub.items = Except.ok gdocs := hgd
                    have hgp2 : Option.map (fun l => List.map (fun t =>
                        (head.2.field.getD head.1 ++ "." ++ t.1, t.2.1, t.2.2)) l)
                        (pathsF f sub.items) = some gps := hgp
                    cases hsub : pathsF f sub.items with
                    | none => rw [hsub] at hgp2; simp at hgp2
                    | some sps =>
                      rw [hsub] at hgp2
                      have hgps : sps.map (fun t =>
                          (head.2.field.getD head.1 ++ "." ++ t.1, t.2.1, t.2.2)) = gps :=
                        Option.some.inj hgp2
                      obtain ⟨pth, i, hmem, hj1, hj2, hj3⟩ :=
                        ihf sub.items gdocs sps hgd2 hsub d hdg
                      refine ⟨head.2.field.getD head.1 ++ "." ++ pth, i, ?_, hj1, hj2, hj3⟩
                      apply List.mem_append_left
                      rw [← hgps]
                      exact List.mem_map_of_mem _ hmem
                  | none =>
                    rw [hl] at hgd hgp
                    have hgd2 : (match head.2.help with
                        | some h => Except.ok [(head.1, h)]
                        | none => Except.error ("No help for " ++ head.1)) =
                        Except.ok gdocs := hgd
                    cases hh : head.2.help with
                    | none => rw [hh] at hgd2; simp at hgd2
                    | some h =>
                      rw [hh] at hgd2
                      have h1 : [(head.1, h)] = gdocs := Except.ok.inj hgd2
                      rw [← h1] at hdg
                      have hd1 : d = (head.1, h) := by simpa using hdg
                      subst hd1
                      have h2 : [(head.2.field.getD head.1, head.1, head.2)] = gps :=
                        Option.some.inj hgp
                      refine ⟨head.2.field.getD head.1, head.2, ?_, hi1, hi2, hh⟩
                      apply List.mem_append_left
                      rw [← h2]
                      simp
              · obtain ⟨pth, i, hmem, hj1, hj2, hj3⟩ := ihr tdocs tps hjd hjp d hdt
                exact ⟨pth, i, List.mem_append_right _ hmem, hj1, hj2, hj3⟩

set_option maxRecDepth 20000 in
/-- C8: whenever documentation extraction succeeds, every emitted
`(option_name, help)` pair corresponds to a triple of the path
resolver's output for the same items whose record is neither internal
nor hidden and whose help is the emitted text; and on every registered
struct a successful extraction emits exactly the resolver's
non-internal, non-hidden triples, in the resolver's depth-first
pre-order, with nested-struct options inlined. -/
theorem document_matches_paths :
    (∀ (fuel : Nat) (items : List (String × OptInfo))
        (docs : List (String × String)) (ps : List PathTriple),
      document_opts fuel items = Except.ok docs →
      pathsF fuel items = some ps →
      ∀ d ∈ docs, ∃ pth i, (pth, d.1, i) ∈ ps ∧ i.internal = false ∧ i.hidden = false ∧
        i.help = some d.2) ∧
    docMatchesCheck = true :=
  ⟨doc_sub_paths, rfl⟩

set_option maxRecDepth 20000 in
/-- Witness for C8: instantiated at `mongoc_insert_one_opts_t` with
fuel 3. -/
theorem document_matches_paths_witness :
    ∃ docs ps, document_opts 3 mongoc_insert_one_opts_t.items = Except.ok docs ∧
      pathsF 3 mongoc_insert_one_opts_t.items = some ps ∧
      ∀ d ∈ docs, ∃ pth i, (pth, d.1, i) ∈ ps ∧ i.internal = false ∧ i.hidden = false ∧
        i.help = some d.2 := by
  refine ⟨_, _, rfl, rfl, ?_⟩
  exact document_matches_paths.1 3 mongoc_insert_one_opts_t.items _ _ rfl rfl

end GenerateOpts
